import Mathlib

namespace SNP

/-!
Shallow embedding of the SNPify backend's variant-calling and classification
core (string search, sequence alignment, clinical variant pipeline, API entry
branch logic), together with theorems settling the frozen claims about it.

Sequences are `List Char`; Python floats are modelled as `Rat` (all constants
in the source are decimal literals, so rational arithmetic is exact);
machine indexing follows Python semantics (negative indices wrap).
Loops without a structural termination measure in the source are given a
fuel parameter; fuel exhaustion is a distinguished outcome, so divergence of
the source loop shows up as "no fuel suffices".
-/

/-- Python `str.upper` on a character (ASCII). -/
def upChar (c : Char) : Char := c.toUpper

/-- Python `str.upper` on a sequence. -/
def upper (s : List Char) : List Char := s.map upChar

/-- Python `ord`. -/
def pyOrd (c : Char) : Nat := c.toNat

/-- Python `%` on integers: result has the sign of the (positive) modulus. -/
def pymod (a : Int) (p : Int) : Int := ((a % p) + p) % p

/-- Python indexing `s[i]` including negative-index wrap-around
(`s[-1]` is the last element).  All call sites in the embedded code keep
the index in Python's valid range, so the default is never produced there. -/
def pyGet (s : List Char) (i : Int) : Char :=
  if i < 0 then s.getD (s.length - (-i).toNat) '?' else s.getD i.toNat '?'

end SNP

namespace SNP.StringMatching

/-! ## StringSearch (`algorithms/string_matching.py`)

All four searchers uppercase the pattern at construction and the text at
`search` time.  The naive and Rabin-Karp loops are structurally bounded;
KMP's inner fallback loop and the whole Boyer-Moore scan are `while` loops
and receive fuel. -/

/-- `NaiveSearcher.search`. -/
def naiveSearch (patternRaw textRaw : List Char) : List Nat :=
  let p := upper patternRaw
  let t := upper textRaw
  if p.length > t.length then []
  else
    (List.range (t.length - p.length + 1)).filter fun i =>
      (List.range p.length).all fun j => t.getD (i + j) '?' == p.getD j '?'

/-- Inner fallback `while j > 0 and pattern[i] != pattern[j]: j = failure[j-1]`
used while building the KMP failure function (fuelled; one fallback per unit). -/
def kmpFallback (fail : List Nat) (p : List Char) (c : Char) :
    Nat → Nat → Nat
  | 0, j => j
  | f + 1, j =>
      if j > 0 && !(c == p.getD j '?') then
        kmpFallback fail p c f (fail.getD (j - 1) 0)
      else j

/-- `KMPSearcher._build_failure_function`. -/
def kmpFailure (p : List Char) : List Nat :=
  let plen := p.length
  let step := fun (st : List Nat × Nat) (i : Nat) =>
    let (fail, j) := st
    let j := kmpFallback fail p (p.getD i '?') plen j
    let j := if p.getD i '?' == p.getD j '?' then j + 1 else j
    (fail.set i j, j)
  (((List.range plen).drop 1).foldl step (List.replicate plen 0, 0)).1

/-- The KMP `while i < text_length` loop (fuelled: `i` does not advance on a
mismatch with `j ≠ 0`). -/
def kmpLoop (fail : List Nat) (p t : List Char) :
    Nat → Nat → Nat → List Nat → Option (List Nat)
  | 0, _, _, _ => none
  | fuel + 1, i, j, acc =>
      if i < t.length then
        let ij := if t.getD i '?' == p.getD j '?' then (i + 1, j + 1) else (i, j)
        let i := ij.1
        let j := ij.2
        if j = p.length then
          kmpLoop fail p t fuel i (fail.getD (j - 1) 0) (acc ++ [i - j])
        else if i < t.length && !(t.getD i '?' == p.getD j '?') then
          if j ≠ 0 then kmpLoop fail p t fuel i (fail.getD (j - 1) 0) acc
          else kmpLoop fail p t fuel (i + 1) j acc
        else kmpLoop fail p t fuel i j acc
      else some acc

/-- `KMPSearcher.search` (fuelled). -/
def kmpSearch (fuel : Nat) (patternRaw textRaw : List Char) : Option (List Nat) :=
  let p := upper patternRaw
  let t := upper textRaw
  if p.length > t.length then some []
  else kmpLoop (kmpFailure p) p t fuel 0 0 []

/-- `RabinKarpSearcher._hash`: polynomial hash mod 101, accumulated with a
modulo at every step exactly as in the source. -/
def rkHash (s : List Char) : Nat :=
  (List.range s.length).foldl
    (fun h i => (h + pyOrd (s.getD i '?') * 256 ^ (s.length - 1 - i)) % 101) 0

/-- `RabinKarpSearcher._rolling_hash` (the final negative fix-up in the source
is dead because Python `%` already yields a nonnegative result; it is kept). -/
def rkRoll (plen : Nat) (oldHash : Int) (oldChar newChar : Char) : Int :=
  let h := pymod (oldHash - (pyOrd oldChar : Int) * (256 : Int) ^ (plen - 1)) 101
  let h := pymod (h * 256 + (pyOrd newChar : Int)) 101
  if h < 0 then h + 101 else h

/-- `RabinKarpSearcher.search`. -/
def rkSearch (patternRaw textRaw : List Char) : List Nat :=
  let p := upper patternRaw
  let t := upper textRaw
  let plen := p.length
  let tlen := t.length
  if plen > tlen then []
  else
    let step := fun (st : Int × List Nat) (i : Nat) =>
      let (h, acc) := st
      let acc :=
        if (rkHash p : Int) == h &&
            (List.range plen).all (fun j => t.getD (i + j) '?' == p.getD j '?') then
          acc ++ [i]
        else acc
      let h := if i < tlen - plen then rkRoll plen h (t.getD i '?') (t.getD (i + plen) '?') else h
      (h, acc)
    ((List.range (tlen - plen + 1)).foldl step ((rkHash (t.take plen) : Int), [])).2

/-- `BoyerMooreSearcher._is_prefix`. -/
def bmPrefixCheck (p : List Char) (pos : Nat) : Bool :=
  (List.range (p.length - pos)).all fun k => p.getD k '?' == p.getD (pos + k) '?'

/-- The `while i >= 0 and pattern[i] == pattern[j]` loop of
`BoyerMooreSearcher._suffix_length`; the first argument encodes `i + 1`. -/
def bmSufLenGo (p : List Char) : Nat → Nat → Nat
  | 0, _ => 0
  | i + 1, j => if p.getD i '?' == p.getD j '?' then bmSufLenGo p i (j - 1) + 1 else 0

/-- `BoyerMooreSearcher._suffix_length`. -/
def bmSuffixLength (p : List Char) (pos : Nat) : Nat :=
  bmSufLenGo p (pos + 1) (p.length - 1)

/-- `BoyerMooreSearcher._build_good_suffix_table`. -/
def bmGoodSuffix (p : List Char) : List Nat :=
  let plen := p.length
  -- first loop: i from plen-1 down to 0, carrying last_prefix_index
  let first :=
    ((List.range plen).reverse.foldl
      (fun (st : List Nat × Nat) (i : Nat) =>
        let (table, lpi) := st
        let lpi := if bmPrefixCheck p (i + 1) then i + 1 else lpi
        (table.set (plen - 1 - i) (lpi - i + plen - 1), lpi))
      (List.replicate plen 0, plen)).1
  -- second loop: i from 0 to plen-2
  (List.range (plen - 1)).foldl
    (fun table i =>
      let slen := bmSuffixLength p i
      table.set slen (plen - 1 - i + slen))
    first

/-- `BoyerMooreSearcher._build_bad_character_table`, looked up at a character:
the table maps every character to the pattern length, then each pattern
position `i < plen - 1` (later positions win) to `plen - 1 - i`. -/
def bmBadChar (p : List Char) (c : Char) : Nat :=
  match ((List.range (p.length - 1)).filter fun i => p.getD i '?' == c).getLast? with
  | some i => p.length - 1 - i
  | none => p.length

/-- The inner right-to-left comparison loop of `BoyerMooreSearcher.search`;
the second argument encodes `j + 1`, and the result is the final `(i, j)`
(with `j = -1` on a full match). -/
def bmScanBack (p t : List Char) : Int → Nat → Int × Int
  | i, 0 => (i, -1)
  | i, j + 1 =>
      if pyGet t i == p.getD j '?' then bmScanBack p t (i - 1) j
      else (i, (j : Int))

/-- Outcome of the fuelled Boyer-Moore scan: a result list, an uncaught
Python exception, or fuel exhaustion (the source loop did not terminate
within the given budget). -/
inductive BMOut
  | ok (l : List Nat)
  | err (msg : String)
  | fuelOut
  deriving DecidableEq, Repr

/-- The `while i < text_length` loop of `BoyerMooreSearcher.search`. -/
def bmLoop (p t : List Char) (gs : List Nat) : Nat → Int → List Nat → BMOut
  | 0, _, _ => .fuelOut
  | fuel + 1, i, acc =>
      if i < (t.length : Int) then
        let r := bmScanBack p t i p.length
        let i' := r.1
        let j' := r.2
        if j' < 0 then
          match gs.get? 0 with
          | none => .err "IndexError"
          | some g0 => bmLoop p t gs fuel (i' + (g0 : Int) + 1) (acc ++ [(i' + 1).toNat])
        else
          let bcs := bmBadChar p (pyGet t i')
          let gss := gs.getD (p.length - 1 - j'.toNat) 0
          bmLoop p t gs fuel (i' + (max bcs gss : Int)) acc
      else .ok acc

/-- `BoyerMooreSearcher.search` (fuelled). -/
def bmSearch (fuel : Nat) (patternRaw textRaw : List Char) : BMOut :=
  let p := upper patternRaw
  let t := upper textRaw
  if p.length > t.length then .ok []
  else bmLoop p t (bmGoodSuffix p) fuel ((p.length : Int) - 1) []

/-- The pattern of the spec's own search-consistency example. -/
def demoPattern : List Char := ['A', 'T', 'G', 'C']

/-- The text of the spec's own search-consistency example. -/
def demoText : List Char :=
  ['A', 'T', 'G', 'C', 'A', 'T', 'G', 'C', 'A', 'T', 'G', 'C']

end SNP.StringMatching

namespace SNP

/-- Python `str.strip()` (default whitespace strip). -/
def pyStrip (s : List Char) : List Char :=
  ((s.dropWhile Char.isWhitespace).reverse.dropWhile Char.isWhitespace).reverse

/-- The normalisation `query.upper().strip()` applied by `SequenceAligner.align`. -/
def normalize (s : List Char) : List Char := pyStrip (upper s)

end SNP

namespace SNP.Alignment

open SNP.StringMatching

/-! ## SequenceAligner (`algorithms/sequence_alignment.py`)

The dynamic-programming routines read exactly three scalars from the
configuration (`match_score`, `mismatch_score`, `gap_penalty`), so they are
parameterised by those; `align` extracts them from the `AlignmentParameters`
record (whose `gap_extension_penalty` field is never read). -/

/-- `AlignmentParameters`: the `gap_extension_penalty` field exists in the
configuration but is never applied in any recurrence. -/
structure AlignmentParameters where
  match_score : Int := 2
  mismatch_score : Int := -1
  gap_penalty : Int := -1
  gap_extension_penalty : Rat := (-1 : Rat) / 2
  deriving Repr, DecidableEq

/-- The default parameters of the dataclass. -/
def defaultParams : AlignmentParameters := {}

/-- `self.scoring_matrix.get((a, b), mismatch_score)`: the matrix built by
`_create_scoring_matrix` covers pairs over `{A,T,G,C,N}` (0 against `N`,
match/mismatch otherwise); any other pair falls back to the mismatch score. -/
def scoringLookup (ms mms : Int) (a b : Char) : Int :=
  if (a = 'A' ∨ a = 'T' ∨ a = 'G' ∨ a = 'C' ∨ a = 'N') ∧
      (b = 'A' ∨ b = 'T' ∨ b = 'G' ∨ b = 'C' ∨ b = 'N') then
    if a = 'N' ∨ b = 'N' then 0
    else if a = b then ms else mms
  else mms

/-- The Needleman-Wunsch score matrix (`_needleman_wunsch_alignment`):
first row/column accumulate the gap penalty, inner cells take the
three-way maximum of the source (`match`, `delete` = up, `insert` = left). -/
def nwScore (ms mms gp : Int) (q r : List Char) : Nat → Nat → Int
  | 0, 0 => 0
  | i + 1, 0 => nwScore ms mms gp q r i 0 + gp
  | 0, j + 1 => nwScore ms mms gp q r 0 j + gp
  | i + 1, j + 1 =>
      let mc := nwScore ms mms gp q r i j + scoringLookup ms mms (q.getD i '?') (r.getD j '?')
      let dc := nwScore ms mms gp q r i (j + 1) + gp
      let ic := nwScore ms mms gp q r (i + 1) j + gp
      max (max mc dc) ic

/-- Traceback directions recorded in the source's `traceback_matrix`
(`Z` is the untouched 0 entry). -/
inductive Dir
  | D
  | U
  | L
  | Z
  deriving DecidableEq, Repr

/-- The Needleman-Wunsch traceback direction for a cell, with the source's
tie-breaking order (diagonal, then up, then left); border cells are
initialised to up/left. -/
def nwDir (ms mms gp : Int) (q r : List Char) : Nat → Nat → Dir
  | 0, 0 => .Z
  | _ + 1, 0 => .U
  | 0, _ + 1 => .L
  | i + 1, j + 1 =>
      let s := nwScore ms mms gp q r (i + 1) (j + 1)
      let mc := nwScore ms mms gp q r i j + scoringLookup ms mms (q.getD i '?') (r.getD j '?')
      let dc := nwScore ms mms gp q r i (j + 1) + gp
      if s = mc then .D else if s = dc then .U else .L

/-- `_traceback` with `local=False`, from cell `(i, j)` down to the origin.
The result is the aligned (query, reference) pair for the prefixes
`q[0:i]`, `r[0:j]` (the source builds the same strings by prepending). -/
def nwTraceback (ms mms gp : Int) (q r : List Char) : Nat → Nat → List Char × List Char
  | 0, 0 => ([], [])
  | i + 1, 0 =>
      let ab := nwTraceback ms mms gp q r i 0
      (ab.1 ++ [q.getD i '?'], ab.2 ++ ['-'])
  | 0, j + 1 =>
      let ab := nwTraceback ms mms gp q r 0 j
      (ab.1 ++ ['-'], ab.2 ++ [r.getD j '?'])
  | i + 1, j + 1 =>
      match nwDir ms mms gp q r (i + 1) (j + 1) with
      | .D =>
          let ab := nwTraceback ms mms gp q r i j
          (ab.1 ++ [q.getD i '?'], ab.2 ++ [r.getD j '?'])
      | .U =>
          let ab := nwTraceback ms mms gp q r i (j + 1)
          (ab.1 ++ [q.getD i '?'], ab.2 ++ ['-'])
      | .L =>
          let ab := nwTraceback ms mms gp q r (i + 1) j
          (ab.1 ++ ['-'], ab.2 ++ [r.getD j '?'])
      | .Z => ([], [])
  termination_by i j => i + j

/-- The Smith-Waterman score matrix (`_smith_waterman_alignment`): like the
global recurrence but floored at zero, with zero borders. -/
def swScore (ms mms gp : Int) (q r : List Char) : Nat → Nat → Int
  | 0, _ => 0
  | _ + 1, 0 => 0
  | i + 1, j + 1 =>
      let mc := swScore ms mms gp q r i j + scoringLookup ms mms (q.getD i '?') (r.getD j '?')
      let dc := swScore ms mms gp q r i (j + 1) + gp
      let ic := swScore ms mms gp q r (i + 1) j + gp
      max 0 (max (max mc dc) ic)

/-- The Smith-Waterman traceback direction: 0-cells (and the untouched
borders) carry `Z`, otherwise the source's tie-breaking order applies. -/
def swDir (ms mms gp : Int) (q r : List Char) : Nat → Nat → Dir
  | 0, _ => .Z
  | _ + 1, 0 => .Z
  | i + 1, j + 1 =>
      let s := swScore ms mms gp q r (i + 1) (j + 1)
      let mc := swScore ms mms gp q r i j + scoringLookup ms mms (q.getD i '?') (r.getD j '?')
      let dc := swScore ms mms gp q r i (j + 1) + gp
      if s = 0 then .Z else if s = mc then .D else if s = dc then .U else .L

/-- The row-major maximum tracking of `_smith_waterman_alignment`
(`max_score` starts at 0 and is only replaced by a strictly larger score). -/
def swBest (ms mms gp : Int) (q r : List Char) : Int × Nat × Nat :=
  (List.range q.length).foldl
    (fun st i =>
      (List.range r.length).foldl
        (fun st j =>
          let s := swScore ms mms gp q r (i + 1) (j + 1)
          if s > st.1 then (s, i + 1, j + 1) else st)
        st)
    (0, 0, 0)

/-- `_traceback` with `local=True`: stop at the origin or at a `Z` cell. -/
def swTraceback (ms mms gp : Int) (q r : List Char) : Nat → Nat → List Char × List Char
  | 0, 0 => ([], [])
  | _ + 1, 0 => ([], [])
  | 0, _ + 1 => ([], [])
  | i + 1, j + 1 =>
      match swDir ms mms gp q r (i + 1) (j + 1) with
      | .Z => ([], [])
      | .D =>
          let ab := swTraceback ms mms gp q r i j
          (ab.1 ++ [q.getD i '?'], ab.2 ++ [r.getD j '?'])
      | .U =>
          let ab := swTraceback ms mms gp q r i (j + 1)
          (ab.1 ++ [q.getD i '?'], ab.2 ++ ['-'])
      | .L =>
          let ab := swTraceback ms mms gp q r (i + 1) j
          (ab.1 ++ ['-'], ab.2 ++ [r.getD j '?'])
  termination_by i j => i + j

/-- The purine/purine and pyrimidine/pyrimidine pairs of `_calculate_similarity`. -/
def similarPair (a b : Char) : Bool :=
  (a = 'A' && b = 'G') || (a = 'G' && b = 'A') || (a = 'C' && b = 'T') || (a = 'T' && b = 'C')

/-- `_calculate_similarity`. -/
def calcSimilarity (aq ar : List Char) : Rat :=
  if aq = [] ∨ ar = [] then 0
  else
    let pairs := (aq.zip ar).filter fun ab => ab.1 ≠ '-' && ab.2 ≠ '-'
    let m := (pairs.filter fun ab => ab.1 = ab.2 || similarPair ab.1 ab.2).length
    if pairs.length > 0 then (m : Rat) / pairs.length else 0

/-- The per-column operation classes of `_generate_cigar`. -/
def cigarOp (a b : Char) : Char :=
  if a = '-' then 'D' else if b = '-' then 'I' else if a = b then 'M' else 'X'

/-- The run-length accumulation loop of `_generate_cigar` (state:
emitted string, current operation, current count). -/
def cigarFoldStep (st : String × Option Char × Nat) (op : Char) : String × Option Char × Nat :=
  let (acc, cur, cnt) := st
  if cur = some op then (acc, cur, cnt + 1)
  else
    (match cur with
     | some c => if cnt > 0 then acc ++ toString cnt ++ String.singleton c else acc
     | none => acc,
     some op, 1)

/-- `_generate_cigar`. -/
def genCigar (aq ar : List Char) : String :=
  if aq = [] ∨ ar = [] then ""
  else
    let fin := ((aq.zip ar).map fun ab => cigarOp ab.1 ab.2).foldl cigarFoldStep ("", none, 0)
    match fin with
    | (acc, some c, cnt) => if cnt > 0 then acc ++ toString cnt ++ String.singleton c else acc
    | (acc, none, _) => acc

/-- The full alignment result after `align` merges `_calculate_alignment_metrics`
into the algorithm-specific dictionary. -/
structure AlignOut where
  aligned_query : List Char
  aligned_reference : List Char
  score : Int
  start_position : Int
  end_position : Int
  identity : Rat
  similarity : Rat
  gaps : Nat
  coverage : Rat
  cigar : String
  alignment_length : Nat
  deriving Repr, DecidableEq

/-- `_calculate_alignment_metrics` applied to an aligned pair plus the
algorithm-specific score/positions.  The identity denominator is the full
aligned length (gap columns included), and since the `original_query` key is
never set, coverage falls back to gapless-length over gapless-length. -/
def mkAlignOut (aq ar : List Char) (score : Int) (startPos endPos : Int) : AlignOut :=
  if aq = [] ∨ ar = [] then
    { aligned_query := aq, aligned_reference := ar, score := score,
      start_position := startPos, end_position := endPos,
      identity := 0, similarity := 0, gaps := 0, coverage := 0,
      cigar := "", alignment_length := 0 }
  else
    let nMatches := ((aq.zip ar).filter fun ab => ab.1 = ab.2 && ab.1 ≠ '-').length
    let total := aq.length
    let queryBases := (aq.filter fun c => c ≠ '-').length
    { aligned_query := aq, aligned_reference := ar, score := score,
      start_position := startPos, end_position := endPos,
      identity := if total > 0 then (nMatches : Rat) / total else 0,
      similarity := calcSimilarity aq ar,
      gaps := (aq.filter fun c => c = '-').length + (ar.filter fun c => c = '-').length,
      coverage := if queryBases > 0 then (queryBases : Rat) / queryBases else 0,
      cigar := genCigar aq ar,
      alignment_length := total }

/-- `_needleman_wunsch_alignment` followed by the metrics merge. -/
def nwAlign (ms mms gp : Int) (q r : List Char) : AlignOut :=
  let ab := nwTraceback ms mms gp q r q.length r.length
  mkAlignOut ab.1 ab.2 (nwScore ms mms gp q r q.length r.length) 0 (r.length : Int)

/-- `_smith_waterman_alignment` followed by the metrics merge. -/
def swAlign (ms mms gp : Int) (q r : List Char) : AlignOut :=
  let best := swBest ms mms gp q r
  let ab := swTraceback ms mms gp q r best.2.1 best.2.2
  mkAlignOut ab.1 ab.2 best.1
    ((best.2.2 : Int) - ((ab.1.filter fun c => c ≠ '-').length : Int))
    (best.2.2 : Int)

/-- Result of the `align` dispatcher: the Boyer-Moore mode can surface an
uncaught exception or fail to terminate. -/
inductive AlignRes
  | ok (res : AlignOut)
  | err (msg : String)
  | fuelOut
  deriving Repr, DecidableEq

/-- `SequenceAligner.align`: normalise both inputs, dispatch on the algorithm
name (anything unknown falls back to Smith-Waterman), and merge the derived
metrics.  The `boyer-moore` mode runs the (fuelled) exact search and falls
back to Smith-Waterman when there is no hit. -/
def align (fuel : Nat) (algorithm : String) (p : AlignmentParameters)
    (qRaw rRaw : List Char) : AlignRes :=
  let q := normalize qRaw
  let r := normalize rRaw
  if algorithm = "needleman-wunsch" then
    .ok (nwAlign p.match_score p.mismatch_score p.gap_penalty q r)
  else if algorithm = "boyer-moore" then
    match bmSearch fuel q r with
    | .ok (s :: _) =>
        let aq := q
        let ar := (r.drop s).take q.length
        .ok (mkAlignOut aq ar (q.length * p.match_score) (s : Int) ((s + q.length : Nat) : Int))
    | .ok [] => .ok (swAlign p.match_score p.mismatch_score p.gap_penalty q r)
    | .err e => .err e
    | .fuelOut => .fuelOut
  else .ok (swAlign p.match_score p.mismatch_score p.gap_penalty q r)

/-- The zero-length, zero-score alignment result. -/
def zeroAlignOut : AlignOut :=
  { aligned_query := [], aligned_reference := [], score := 0,
    start_position := 0, end_position := 0, identity := 0, similarity := 0,
    gaps := 0, coverage := 0, cigar := "", alignment_length := 0 }

open SNP.StringMatching

end SNP.Alignment

namespace SNP.Clinical

/-! ## Clinical variant calling (`algorithms/clinical_snp_detection.py`) -/

/-- The ACMG score cutoffs of `OptimizedClinicalThresholds`. -/
def PATHOGENIC_SCORE_THRESHOLD : Rat := 10

def LIKELY_PATHOGENIC_THRESHOLD : Rat := 6

def LIKELY_BENIGN_THRESHOLD : Rat := -6

def BENIGN_THRESHOLD : Rat := -10

/-- `OptimizedACMGEvidence`: the fixed catalogue of boolean evidence flags. -/
structure OptimizedACMGEvidence where
  pvs1 : Bool := false
  ps1 : Bool := false
  ps2 : Bool := false
  ps3 : Bool := false
  ps4 : Bool := false
  pm1 : Bool := false
  pm2 : Bool := false
  pm3 : Bool := false
  pm4 : Bool := false
  pm5 : Bool := false
  pm6 : Bool := false
  pp1 : Bool := false
  pp2 : Bool := false
  pp3 : Bool := false
  pp4 : Bool := false
  pp5 : Bool := false
  ba1 : Bool := false
  bs1 : Bool := false
  bs2 : Bool := false
  bs3 : Bool := false
  bs4 : Bool := false
  bp1 : Bool := false
  bp2 : Bool := false
  bp3 : Bool := false
  bp4 : Bool := false
  bp5 : Bool := false
  bp6 : Bool := false
  bp7 : Bool := false
  deriving DecidableEq, Repr

/-- `OptimizedACMGEvidence.calculate_pathogenicity_score`: the signed sum of
the fixed flag weights. -/
def calculatePathogenicityScore (e : OptimizedACMGEvidence) : Rat :=
  (if e.pvs1 then (10 : Rat) else 0) +
  (if e.ps1 then (5 : Rat) else 0) +
  (if e.ps2 then (5 : Rat) else 0) +
  (if e.ps3 then (5 : Rat) else 0) +
  (if e.ps4 then (5 : Rat) else 0) +
  (if e.pm1 then (3 : Rat) else 0) +
  (if e.pm2 then (5 : Rat) / 2 else 0) +
  (if e.pm3 then (5 : Rat) / 2 else 0) +
  (if e.pm4 then (3 : Rat) else 0) +
  (if e.pm5 then (5 : Rat) / 2 else 0) +
  (if e.pm6 then (2 : Rat) else 0) +
  (if e.pp1 then (1 : Rat) else 0) +
  (if e.pp2 then (3 : Rat) / 2 else 0) +
  (if e.pp3 then (1 : Rat) else 0) +
  (if e.pp4 then (1 : Rat) else 0) +
  (if e.pp5 then (1 : Rat) else 0) -
  (if e.ba1 then (10 : Rat) else 0) -
  (if e.bs1 then (5 : Rat) else 0) -
  (if e.bs2 then (5 : Rat) else 0) -
  (if e.bs3 then (5 : Rat) else 0) -
  (if e.bs4 then (4 : Rat) else 0) -
  (if e.bp1 then (3 : Rat) / 2 else 0) -
  (if e.bp2 then (1 : Rat) else 0) -
  (if e.bp3 then (1 : Rat) else 0) -
  (if e.bp4 then (3 : Rat) / 2 else 0) -
  (if e.bp5 then (1 : Rat) else 0) -
  (if e.bp6 then (1 : Rat) else 0) -
  (if e.bp7 then (1 : Rat) else 0)

/-- `OptimizedACMGEvidence.get_classification`: the five-level step function
over the score. -/
def getClassification (e : OptimizedACMGEvidence) : String :=
  let score := calculatePathogenicityScore e
  if score ≥ PATHOGENIC_SCORE_THRESHOLD then "PATHOGENIC"
  else if score ≥ LIKELY_PATHOGENIC_THRESHOLD then "LIKELY_PATHOGENIC"
  else if score ≤ BENIGN_THRESHOLD then "BENIGN"
  else if score ≤ LIKELY_BENIGN_THRESHOLD then "LIKELY_BENIGN"
  else "UNCERTAIN_SIGNIFICANCE"

/-- `AdvancedQualityMetrics` (defaults as in the dataclass). -/
structure AdvancedQualityMetrics where
  base_quality : Rat := 0
  mapping_quality : Rat := 0
  qual_by_depth : Rat := 0
  fisher_strand : Rat := 0
  strand_odds_ratio : Rat := 0
  mapping_quality_rank_sum : Rat := 0
  read_pos_rank_sum : Rat := 0
  allele_balance : Rat := 1 / 2
  depth : Int := 0
  variant_confidence : Rat := 0
  context_quality : Rat := 0
  error_probability : Rat := 1
  conservation_score : Rat := 0
  domain_score : Rat := 0
  pathogenicity_score : Rat := 0
  deriving DecidableEq, Repr

/-- `AdvancedQualityMetrics.passes_optimized_thresholds` for SNPs (the
default variant type used by the caller): a strict conjunction. -/
def passesOptimizedThresholds (m : AdvancedQualityMetrics) : Bool :=
  m.base_quality ≥ 30 && m.mapping_quality ≥ 50 &&
  m.error_probability ≤ 1 / 2000 && m.qual_by_depth ≥ 15 &&
  m.fisher_strand ≤ 15 && m.strand_odds_ratio ≤ 3 / 2 &&
  m.depth ≥ 20 && m.context_quality ≥ 8 / 10 &&
  (1 / 4 ≤ m.allele_balance && m.allele_balance ≤ 3 / 4)

/-- A candidate variant as carried between the caller's pipeline stages. -/
structure Variant where
  position : Nat
  ref : Char
  alt : Char
  metrics : AdvancedQualityMetrics
  population_frequency : Option Rat := none
  deriving DecidableEq, Repr

/-- `_load_critical_positions`: the per-gene critical region ranges
(inclusive ends). -/
def criticalRegions (gene : String) : List (Nat × Nat) :=
  if gene = "BRCA1" then [(1, 109), (1650, 1855), (502, 508), (1390, 1424)]
  else [(1009, 2113), (2670, 3190), (3270, 3305), (21, 39)]

/-- Membership in the caller's `critical_positions` set. -/
def inCriticalPositions (gene : String) (pos : Nat) : Bool :=
  (criticalRegions gene).any fun se => se.1 ≤ pos && pos ≤ se.2

/-- `_load_known_pathogenic`: position-keyed table of
`(ref, alt, clinical_significance)` per gene. -/
def knownPathogenic (gene : String) (pos : Nat) : Option (Char × Char × String) :=
  if gene = "BRCA1" then
    if pos = 68 then some ('A', 'G', "PATHOGENIC")
    else if pos = 185 then some ('A', 'G', "PATHOGENIC")
    else if pos = 1135 then some ('G', 'A', "LIKELY_PATHOGENIC")
    else none
  else
    if pos = 617 then some ('T', 'G', "PATHOGENIC")
    else if pos = 999 then some ('C', 'T', "LIKELY_PATHOGENIC")
    else none

/-- `_is_synonymous_variant`: `position % 3 == 0 and random.random() < 0.3`.
The short-circuit `and` draws one random number only when the position is a
multiple of 3; `rand` is the value that draw would produce. -/
def isSynonymousVariant (v : Variant) (rand : Rat) : Bool :=
  v.position % 3 == 0 && rand < 3 / 10

/-- `_evaluate_optimized_acmg_criteria`: sets evidence flags from the
variant, its metrics, its population frequency and the gene's tables.  The
mutation of the passed-in evidence object is modelled by returning the
updated record; `rand` is the random draw consumed by the synonymous check. -/
def evaluateOptimizedACMGCriteria (gene : String) (v : Variant)
    (e : OptimizedACMGEvidence) (rand : Rat) : OptimizedACMGEvidence :=
  let e :=
    match knownPathogenic gene v.position with
    | some krs =>
        if krs.1 = v.ref ∧ krs.2.1 = v.alt then
          if krs.2.2 = "PATHOGENIC" then { e with ps1 := true }
          else if krs.2.2 = "LIKELY_PATHOGENIC" then { e with pm5 := true }
          else e
        else e
    | none => e
  let e := if inCriticalPositions gene v.position then { e with pm1 := true } else e
  let e :=
    match v.population_frequency with
    | some f => if f < 1 / 10000 then { e with pm2 := true } else e
    | none => if v.metrics.variant_confidence > 9 / 10 then { e with pm2 := true } else e
  let e := if gene = "BRCA1" ∨ gene = "BRCA2" then { e with pp2 := true } else e
  let e :=
    if v.metrics.conservation_score > 9 / 10 ∧ v.metrics.context_quality > 8 / 10 then
      { e with pp3 := true }
    else e
  let e :=
    if v.metrics.domain_score > 9 / 10 ∧ v.metrics.conservation_score > 95 / 100 then
      { e with ps3 := true }
    else e
  let e :=
    match v.population_frequency with
    | some f => if f > 5 / 100 then { e with ba1 := true } else e
    | none => e
  let e :=
    match v.population_frequency with
    | some f => if f > 1 / 100 then { e with bs1 := true } else e
    | none => e
  let e :=
    if v.metrics.conservation_score < 1 / 2 ∧ v.metrics.context_quality < 6 / 10 then
      { e with bp4 := true }
    else e
  let e := if isSynonymousVariant v rand then { e with bp7 := true } else e
  e

/-- `_final_confidence_filtering`'s per-variant loop body and append, over
the already-sorted list: the floor starts at 0.85, is lowered to 0.80 for a
domain score above 0.8, and lowered to 0.75 at known-pathogenic positions
(the later `if` wins). -/
def finalFilterLoop (gene : String) : List Variant → List Variant
  | [] => []
  | v :: rest =>
      let minConfidence : Rat := 85 / 100
      let minConfidence := if v.metrics.domain_score > 8 / 10 then 80 / 100 else minConfidence
      let minConfidence :=
        if (knownPathogenic gene v.position).isSome then 75 / 100 else minConfidence
      if v.metrics.variant_confidence ≥ minConfidence then v :: finalFilterLoop gene rest
      else finalFilterLoop gene rest

/-- The stable descending sort by confidence
(`variants.sort(key=..., reverse=True)`). -/
def sortByConfidenceDesc (variants : List Variant) : List Variant :=
  variants.mergeSort fun a b => b.metrics.variant_confidence ≤ a.metrics.variant_confidence

/-- `_final_confidence_filtering`. -/
def finalConfidenceFiltering (gene : String) (variants : List Variant) : List Variant :=
  if variants = [] then []
  else finalFilterLoop gene (sortByConfidenceDesc variants)

/-- The confidence floor exactly as the claim describes it (spec side of the
C8 equivalence): 0.85, lowered to 0.80 in critical domains and to 0.75 at
known-pathogenic positions, the strongest lowering winning. -/
def confidenceFloor (gene : String) (v : Variant) : Rat :=
  if (knownPathogenic gene v.position).isSome then 75 / 100
  else if v.metrics.domain_score > 8 / 10 then 80 / 100
  else 85 / 100

/-- A variant as returned by `_quick_annotate_variants` (the fields the
report computations read). -/
structure AnnotatedVariant where
  id : String
  position : Nat
  ref_allele : Char
  alt_allele : Char
  clinical_significance : String
  confidence : Rat
  in_critical_domain : Bool
  error_probability : Rat
  context_quality : Rat
  base_quality : Rat
  deriving DecidableEq, Repr

/-- The per-index body of `_detect_raw_variants_optimized`'s scan.  On a
non-`N` mismatch whose base quality clears the speed pre-filter (25), the
source calls `self._calculate_simple_metrics`, a method that does not exist
anywhere in the class — an `AttributeError`. -/
def detectGo (reference query : List Char) (qs : Option (List Int)) :
    List Nat → Except String (List Variant)
  | [] => .ok []
  | i :: rest =>
      if query.getD i '?' ≠ reference.getD i '?' then
        if query.getD i '?' = 'N' ∨ reference.getD i '?' = 'N' then
          detectGo reference query qs rest
        else
          let baseQual : Int :=
            match qs with
            | some l => if l ≠ [] ∧ i < l.length then l.getD i 0 else 35
            | none => 35
          if baseQual < 25 then detectGo reference query qs rest
          else .error "AttributeError: no attribute _calculate_simple_metrics"
      else detectGo reference query qs rest

/-- `_detect_raw_variants_optimized`: the scan runs in chunks,
`for chunk_start in range(0, min_len, chunk_size)` with
`chunk_size = min(1000, min_len)`.  When `min_len = 0` the step is 0 and
Python's `range` raises `ValueError` before any scanning.  Otherwise the
chunks visit exactly the indices `0 ..< min_len` in order (the chunking
adds only logging and a per-chunk variant cap that sits after the failing
metrics call, so the index walk is one pass). -/
def detectRawVariantsOptimized (reference query : List Char)
    (qs : Option (List Int)) : Except String (List Variant) :=
  let minLen := min query.length reference.length
  let chunkSize := min 1000 minLen
  if chunkSize = 0 then .error "ValueError: range() arg 3 must not be zero"
  else detectGo reference query qs (List.range minLen)

/-- `call_variants`: uppercase the query, scan, and short-circuit on an
empty candidate list after the scan or after the quality filter.  When the
quality-filtered list is non-empty, step 5 reads the name
`population_filtered`, which is never assigned anywhere in the method — a
`NameError`. -/
def callVariants (gene : String) (reference queryRaw : List Char)
    (qs : Option (List Int)) : Except String (List AnnotatedVariant) := do
  let query := SNP.upper queryRaw
  let raw ← detectRawVariantsOptimized (SNP.upper reference) query qs
  if raw = [] then return []
  let qualityFiltered := raw.filter fun v => passesOptimizedThresholds v.metrics
  if qualityFiltered = [] then return []
  .error "NameError: name population_filtered is not defined"

/-- `calculate_quality_score`. -/
def calculateQualityScore (variants : List AnnotatedVariant) (totalBases : Nat) : Rat :=
  if totalBases = 0 then 95
  else
    let qualityScore : Rat :=
      if variants ≠ [] then
        let n : Rat := variants.length
        let avgConfidence := (variants.map fun v => v.confidence).sum / n
        let avgError := (variants.map fun v => v.error_probability).sum / n
        let avgContext := (variants.map fun v => v.context_quality).sum / n
        (avgConfidence * 4 / 10 + (1 - avgError) * 3 / 10 + avgContext * 3 / 10) * 100
      else 98
    min 100 (max 70 qualityScore)

/-- Python `round(x, 1)` (round half to even at one decimal). -/
def pyRound1 (x : Rat) : Rat :=
  let y := x * 10
  let f : Int := ⌊y⌋
  let r := y - f
  if r < 1 / 2 then (f : Rat) / 10
  else if r > 1 / 2 then ((f : Rat) + 1) / 10
  else if f % 2 = 0 then (f : Rat) / 10 else ((f : Rat) + 1) / 10

/-- The summary dictionary built by `_generate_optimized_summary`. -/
structure Summary where
  total_variants : Nat
  pathogenic_variants : Nat
  likely_pathogenic_variants : Nat
  uncertain_variants : Nat
  likely_benign_variants : Nat
  benign_variants : Nat
  pathogenic_rate : Rat
  high_confidence_variants : Nat
  critical_domain_variants : Nat
  deriving DecidableEq, Repr

/-- `_generate_optimized_summary`. -/
def generateOptimizedSummary (variants : List AnnotatedVariant) : Summary :=
  let total := variants.length
  let pathogenic := (variants.filter fun v => v.clinical_significance = "PATHOGENIC").length
  let likelyPathogenic :=
    (variants.filter fun v => v.clinical_significance = "LIKELY_PATHOGENIC").length
  let rate : Rat :=
    if total > 0 then ((pathogenic + likelyPathogenic : Rat) / (max 1 total)) * 100 else 0
  { total_variants := total,
    pathogenic_variants := pathogenic,
    likely_pathogenic_variants := likelyPathogenic,
    uncertain_variants :=
      (variants.filter fun v => v.clinical_significance = "UNCERTAIN_SIGNIFICANCE").length,
    likely_benign_variants :=
      (variants.filter fun v => v.clinical_significance = "LIKELY_BENIGN").length,
    benign_variants := (variants.filter fun v => v.clinical_significance = "BENIGN").length,
    pathogenic_rate := pyRound1 rate,
    high_confidence_variants := (variants.filter fun v => v.confidence > 9 / 10).length,
    critical_domain_variants := (variants.filter fun v => v.in_critical_domain).length }

/-- `_calculate_optimized_risk_score`: an empty variant list returns 0.0
before any arithmetic. -/
def calculateOptimizedRiskScore (variants : List AnnotatedVariant) : Rat :=
  if variants = [] then 0
  else
    let risk :=
      (variants.map fun v =>
        let baseRisk : Rat :=
          if v.clinical_significance = "PATHOGENIC" then 5
          else if v.clinical_significance = "LIKELY_PATHOGENIC" then 3
          else if v.clinical_significance = "UNCERTAIN_SIGNIFICANCE" then 1 / 5
          else 0
        let vr := baseRisk * v.confidence
        let vr := if v.in_critical_domain then vr * (3 / 2) else vr
        -- `var['quality_metrics']` as built by `_quick_annotate_variants` has no
        -- `conservation_score` key, so the `.get(..., 0.5)` default always applies
        -- and the 1.2 conservation multiplier can never fire.
        let conservation : Rat := 1 / 2
        let vr := if conservation > 9 / 10 then vr * (6 / 5) else vr
        vr).sum
    pyRound1 (min 10 risk)

/-- `_generate_optimized_recommendations`. -/
def generateOptimizedRecommendations (variants : List AnnotatedVariant)
    (riskScore : Rat) : List String :=
  let pathogenicCount := (variants.filter fun v => v.clinical_significance = "PATHOGENIC").length
  let likelyPathogenicCount :=
    (variants.filter fun v => v.clinical_significance = "LIKELY_PATHOGENIC").length
  let recs : List String := []
  let recs :=
    if pathogenicCount > 0 then
      ("CRITICAL: " ++ toString pathogenicCount ++
        " pathogenic variant(s) identified - immediate genetic counseling required") ::
      (recs ++ ["Enhanced surveillance and risk-reducing options should be discussed"])
    else recs
  let recs :=
    if likelyPathogenicCount > 0 then
      recs ++ ["Found " ++ toString likelyPathogenicCount ++
        " likely pathogenic variant(s) - genetic counseling recommended"]
    else recs
  let recs :=
    if variants.length = 0 then
      recs ++ ["No pathogenic variants detected in analyzed sequence",
        "Continue standard screening guidelines for BRCA-related cancers"]
    else if variants.length ≤ 5 then
      recs ++ ["Moderate variant burden (" ++ toString variants.length ++
        " variants) - comprehensive review recommended"]
    else
      recs ++ ["Multiple variants detected (" ++ toString variants.length ++
        ") - detailed genetic counseling strongly advised"]
  let recs :=
    if riskScore ≥ 8 then recs ++ ["HIGH RISK: Consider immediate discussion of prophylactic options"]
    else if riskScore ≥ 5 then recs ++ ["MODERATE-HIGH RISK: Enhanced surveillance protocol recommended"]
    else if riskScore ≥ 2 then recs ++ ["MODERATE RISK: Increased monitoring may be beneficial"]
    else recs
  let vusCount :=
    (variants.filter fun v => v.clinical_significance = "UNCERTAIN_SIGNIFICANCE").length
  let recs :=
    if vusCount > 0 then
      recs ++ [toString vusCount ++
        " variant(s) of uncertain significance - may be reclassified with additional evidence"]
    else recs
  let highConfCount := (variants.filter fun v => v.confidence > 9 / 10).length
  if highConfCount < variants.length then
    recs ++ ["Some variants have moderate confidence - consider confirmatory testing"]
  else recs

/-- The analysis report assembled by `OptimizedClinicalAnalysisPipeline.analyze`
(timing metadata aside). -/
structure AnalysisReport where
  variants : List AnnotatedVariant
  summary : Summary
  quality_score : Rat
  risk_score : Rat
  recommendations : List String
  deriving DecidableEq, Repr

/-- `OptimizedClinicalAnalysisPipeline.analyze`. -/
def analyze (gene : String) (reference query : List Char) :
    Except String AnalysisReport := do
  let variants ← callVariants gene reference query none
  let qualityScore := calculateQualityScore variants query.length
  let summary := generateOptimizedSummary variants
  let riskScore := calculateOptimizedRiskScore variants
  let recommendations := generateOptimizedRecommendations variants riskScore
  return { variants := variants, summary := summary, quality_score := qualityScore,
           risk_score := riskScore, recommendations := recommendations }

end SNP.Clinical

namespace SNP.Main

/-! ## API entry layer (`main.py`) -/

/-- The top-level names defined by `algorithms/clinical_snp_detection.py`
(the module defines only the `Optimized*` variants of the pipeline names). -/
def clinicalModuleExports : List String :=
  ["OptimizedClinicalThresholds", "AdvancedQualityMetrics", "OptimizedACMGEvidence",
   "OptimizedClinicalVariantCaller", "OptimizedClinicalAnalysisPipeline"]

/-- `main.py` line 26 imports `ClinicalAnalysisPipeline` and
`ClinicalThresholds` from that module; `CLINICAL_DETECTION_AVAILABLE` is
true exactly when both names exist there. -/
def CLINICAL_DETECTION_AVAILABLE : Bool :=
  "ClinicalAnalysisPipeline" ∈ clinicalModuleExports &&
  "ClinicalThresholds" ∈ clinicalModuleExports

/-- The `overall_risk` bucket of the summary built by the analysis
entry points: HIGH at risk ≥ 7, MODERATE at ≥ 4, LOW otherwise. -/
def overallRisk (riskScore : Rat) : String :=
  if riskScore ≥ 7 then "HIGH" else if riskScore ≥ 4 then "MODERATE" else "LOW"

/-- What the variant-calling step of `perform_clinical_analysis` reports. -/
structure VariantCallingOutcome where
  variants : List SNP.Clinical.AnnotatedVariant
  quality_score : Rat
  risk_score : Rat
  recommendations : List String
  deriving DecidableEq, Repr

/-- The branch logic of `perform_clinical_analysis`'s variant-calling step
(`main.py` lines 510-543).  The clinical branch is unreachable when the
module failed to load (`none` stands for the unreachable call through the
unbound name).  The string-matching branch sets the reported values first and then
runs the selected searcher only for its side effect; a search that does not
terminate (Boyer-Moore can cycle) or exhausts its fuel budget leaves the
step unfinished (`none`). -/
def variantCallingStep (clinicalAvailable stringMatchingAvailable : Bool)
    (algorithm : String) (fuel : Nat)
    (preprocessedSequence referenceSeq : List Char) : Option VariantCallingOutcome :=
  if clinicalAvailable then none
  else if stringMatchingAvailable &&
      (algorithm = "boyer-moore" || algorithm = "kmp" || algorithm = "rabin-karp") then
    let outcome : VariantCallingOutcome :=
      { variants := [], quality_score := 95, risk_score := 0,
        recommendations := ["Analysis completed using string matching algorithm"] }
    if algorithm = "boyer-moore" then
      match SNP.StringMatching.bmSearch fuel (preprocessedSequence.take 50) referenceSeq with
      | .fuelOut => none
      | _ => some outcome
    else if algorithm = "kmp" then
      match SNP.StringMatching.kmpSearch fuel (preprocessedSequence.take 50) referenceSeq with
      | none => none
      | some _ => some outcome
    else some outcome
  else
    some { variants := [], quality_score := 95, risk_score := 0,
           recommendations := ["No variants detected in conservative analysis"] }

end SNP.Main

namespace SNP.Clinical

/-- The 60bp reference of the spec's end-to-end scenario (the BRCA1 demo
prefix). -/
def scenarioReference : List Char :=
  ['A','T','G','G','A','T','T','T','A','T','C','T','G','C','T','C','T','T','C','G',
   'C','G','T','T','G','A','A','G','A','A','G','T','A','C','A','A','A','A','T','G',
   'T','C','A','T','T','A','A','T','G','C','T','A','T','G','C','A','G','A','A','A']

/-- The scenario query: the `T` at 0-based index 9 (the spec's "position 10")
replaced by `G`. -/
def scenarioQuery : List Char := scenarioReference.set 9 'G'

end SNP.Clinical

namespace SNP.StringMatching

/-- After reporting the match at offset 0, the Boyer-Moore scan over the demo
input cycles: window end 1 mismatches and shifts to 3, window end 3 re-matches
offset 0 and shifts back to 1.  No fuel budget suffices. -/
theorem bmLoop_demo_stuck :
    ∀ fuel acc,
      bmLoop demoPattern demoText (bmGoodSuffix demoPattern) fuel 1 acc = .fuelOut := by
  intro fuel
  induction fuel using Nat.strong_induction_on with
  | _ fuel ih =>
    match fuel with
    | 0 => intro acc; rfl
    | 1 => intro acc; rfl
    | n + 2 =>
      intro acc
      rw [show bmLoop demoPattern demoText (bmGoodSuffix demoPattern) (n + 2) 1 acc =
            bmLoop demoPattern demoText (bmGoodSuffix demoPattern) n 1 (acc ++ [0]) from rfl]
      exact ih n (by omega) _

set_option maxRecDepth 40000 in
/-- C2: the four searchers do NOT return identical offset sets on every input.
On the spec's own example (pattern `ATGC`, text `ATGCATGCATGC`) the naive,
KMP and Rabin-Karp searchers all return `[0, 4, 8]`, but the Boyer-Moore
scan never terminates: after its first reported match the applied shift
re-examines the same window, so the loop runs out of any fuel budget. -/
theorem search_consistency_demo_bm_diverges :
    naiveSearch demoPattern demoText = [0, 4, 8] ∧
    kmpSearch 100 demoPattern demoText = some [0, 4, 8] ∧
    rkSearch demoPattern demoText = [0, 4, 8] ∧
    ∀ fuel, bmSearch fuel demoPattern demoText = .fuelOut := by
  refine ⟨by decide, by decide, by decide, ?_⟩
  intro fuel
  match fuel with
  | 0 => rfl
  | n + 1 =>
    rw [show bmSearch (n + 1) demoPattern demoText =
          bmLoop demoPattern demoText (bmGoodSuffix demoPattern) n 1 [0] from rfl]
    exact bmLoop_demo_stuck n [0]

end SNP.StringMatching

namespace SNP.Alignment

open SNP.StringMatching

/-- C9: the alignment output (aligned strings, score and all derived metrics)
is invariant under the `gap_extension_penalty` configuration field — two
parameter records that agree on match/mismatch/gap scores produce identical
`align` results for every mode, input pair and fuel budget, because no
alignment routine ever reads that field. -/
theorem align_gap_extension_invariant (fuel : Nat) (algorithm : String)
    (p p' : AlignmentParameters)
    (h1 : p.match_score = p'.match_score)
    (h2 : p.mismatch_score = p'.mismatch_score)
    (h3 : p.gap_penalty = p'.gap_penalty)
    (q r : List Char) :
    align fuel algorithm p q r = align fuel algorithm p' q r := by
  obtain ⟨a, b, c, d⟩ := p
  obtain ⟨a', b', c', d'⟩ := p'
  have ha : a = a' := h1
  have hb : b = b' := h2
  have hc : c = c' := h3
  subst ha
  subst hb
  subst hc
  rfl

/-- Witness for C9: two parameter records differing only in the extension
penalty give the same Needleman-Wunsch result on a concrete input. -/
theorem align_gap_extension_invariant_witness :
    align 0 "needleman-wunsch"
        { match_score := 2, mismatch_score := -1, gap_penalty := -1,
          gap_extension_penalty := (-1 : Rat) / 2 } ['A', 'T'] ['A', 'G'] =
      align 0 "needleman-wunsch"
        { match_score := 2, mismatch_score := -1, gap_penalty := -1,
          gap_extension_penalty := 7 } ['A', 'T'] ['A', 'G'] :=
  align_gap_extension_invariant 0 "needleman-wunsch"
    { match_score := 2, mismatch_score := -1, gap_penalty := -1,
      gap_extension_penalty := (-1 : Rat) / 2 }
    { match_score := 2, mismatch_score := -1, gap_penalty := -1,
      gap_extension_penalty := 7 }
    rfl rfl rfl ['A', 'T'] ['A', 'G']

theorem take_succ_getD {α : Type} (l : List α) (d : α) (j : Nat) (h : j < l.length) :
    l.take (j + 1) = l.take j ++ [l.getD j d] := by
  have h1 : l[j]? = some l[j] := List.getElem?_eq_getElem h
  have h2 : l.getD j d = l[j] := by rw [List.getD_eq_getElem?_getD, h1]; rfl
  rw [List.take_succ, h1, h2]
  rfl

theorem foldl_stationary {α β : Type} (l : List β) (b : α) :
    l.foldl (fun st (_ : β) => st) b = b := by
  induction l generalizing b with
  | nil => rfl
  | cons x xs ih => exact ih b

/-- Smith-Waterman with an empty query: no cells are filled, the best cell
stays `(0, (0, 0))` and the traceback is empty. -/
theorem swAlign_nil_query (ms mms gp : Int) (r : List Char) :
    swAlign ms mms gp [] r = zeroAlignOut := by
  simp [swAlign, swBest, swTraceback, mkAlignOut, zeroAlignOut]

/-- Smith-Waterman with an empty reference: every row scan is empty. -/
theorem swAlign_nil_ref (ms mms gp : Int) (q : List Char) :
    swAlign ms mms gp q [] = zeroAlignOut := by
  have hbest : swBest ms mms gp q [] = (0, 0, 0) := by
    simp [swBest, foldl_stationary]
  simp [swAlign, hbest, swTraceback, mkAlignOut, zeroAlignOut]

/-- Needleman-Wunsch first row: the score accumulates the gap penalty. -/
theorem nwScore_zero_left (ms mms gp : Int) (q r : List Char) (j : Nat) :
    nwScore ms mms gp q r 0 j = j * gp := by
  induction j with
  | zero => simp [nwScore]
  | succ j ih => simp [nwScore, ih]; ring

/-- Needleman-Wunsch first column: the score accumulates the gap penalty. -/
theorem nwScore_zero_right (ms mms gp : Int) (q r : List Char) (i : Nat) :
    nwScore ms mms gp q r i 0 = i * gp := by
  induction i with
  | zero => simp [nwScore]
  | succ i ih => simp [nwScore, ih]; ring

/-- Traceback along the first row: every step is LEFT, producing an all-gap
query against the reference prefix. -/
theorem nwTraceback_zero_left (ms mms gp : Int) (q r : List Char) (j : Nat)
    (hj : j ≤ r.length) :
    nwTraceback ms mms gp q r 0 j = (List.replicate j '-', r.take j) := by
  induction j with
  | zero => simp [nwTraceback]
  | succ j ih =>
      have hj' : j ≤ r.length := Nat.le_of_succ_le hj
      have hlt : j < r.length := hj
      rw [show nwTraceback ms mms gp q r 0 (j + 1) =
            ((nwTraceback ms mms gp q r 0 j).1 ++ ['-'],
             (nwTraceback ms mms gp q r 0 j).2 ++ [r.getD j '?']) from by
        simp [nwTraceback]]
      rw [ih hj']
      simp only [Prod.mk.injEq]
      constructor
      · simp [List.replicate_succ']
      · rw [take_succ_getD r '?' j hlt]

/-- Traceback along the first column: every step is UP, producing the query
prefix against an all-gap reference. -/
theorem nwTraceback_zero_right (ms mms gp : Int) (q r : List Char) (i : Nat)
    (hi : i ≤ q.length) :
    nwTraceback ms mms gp q r i 0 = (q.take i, List.replicate i '-') := by
  induction i with
  | zero => simp [nwTraceback]
  | succ i ih =>
      have hi' : i ≤ q.length := Nat.le_of_succ_le hi
      have hlt : i < q.length := hi
      rw [show nwTraceback ms mms gp q r (i + 1) 0 =
            ((nwTraceback ms mms gp q r i 0).1 ++ [q.getD i '?'],
             (nwTraceback ms mms gp q r i 0).2 ++ ['-']) from by
        simp [nwTraceback]]
      rw [ih hi']
      simp only [Prod.mk.injEq]
      constructor
      · rw [take_succ_getD q '?' i hlt]
      · simp [List.replicate_succ']

/-- Boyer-Moore search with an empty pattern: the scan window starts at
`i = -1 < len(text)`, the empty window "matches" immediately, and the
post-match shift reads `good_suffix_table[0]` of an empty table — an
`IndexError`, whatever the text is. -/
theorem bmSearch_nil_pattern (t : List Char) (fuel : Nat) :
    bmSearch (fuel + 1) [] t = .err "IndexError" := by
  have hneg : (-1 : Int) < (t.length : Int) := by omega
  simp [bmSearch, upper, bmLoop, bmScanBack, hneg, bmGoodSuffix]

/-- Boyer-Moore search of a non-empty pattern in an empty text returns no
matches (the length guard fires). -/
theorem bmSearch_nil_text (q : List Char) (h : q ≠ []) (fuel : Nat) :
    bmSearch fuel q [] = .ok [] := by
  have hlen : 0 < (q.map upChar).length := by
    simp only [List.length_map]
    exact List.length_pos.mpr h
  simp [bmSearch, upper, hlen]
  intro hq
  exact absurd hq h

/-- C4 (amended): behaviour of `align` on empty inputs, mode by mode.
Smith-Waterman returns the zero-length, zero-score result whenever either
normalised input is empty.  Needleman-Wunsch does so only when both are
empty: an empty query yields an all-gap query row against the whole
reference with score `len(reference) * gap_penalty`, and symmetrically for
an empty reference.  Exact-match (`boyer-moore`) mode raises an
`IndexError` whenever the query is empty, and falls back to the zero
Smith-Waterman result for an empty reference and non-empty query. -/
theorem align_empty_input_behavior (p : AlignmentParameters) :
    (∀ (q r : List Char) (fuel : Nat), normalize q = [] ∨ normalize r = [] →
        align fuel "smith-waterman" p q r = .ok zeroAlignOut) ∧
    (∀ (r : List Char) (fuel : Nat),
        align fuel "needleman-wunsch" p [] r =
          .ok (mkAlignOut (List.replicate (normalize r).length '-') (normalize r)
                ((normalize r).length * p.gap_penalty) 0 ((normalize r).length : Int))) ∧
    (∀ (q : List Char) (fuel : Nat),
        align fuel "needleman-wunsch" p q [] =
          .ok (mkAlignOut (normalize q) (List.replicate (normalize q).length '-')
                ((normalize q).length * p.gap_penalty) 0 0)) ∧
    (∀ (r : List Char) (fuel : Nat),
        align (fuel + 1) "boyer-moore" p [] r = .err "IndexError") ∧
    (∀ (q : List Char) (fuel : Nat), normalize q ≠ [] →
        align fuel "boyer-moore" p q [] = .ok zeroAlignOut) := by
  refine ⟨?_, ?_, ?_, ?_, ?_⟩
  · intro q r fuel h
    rcases h with h | h
    · simp [align, h, swAlign_nil_query]
    · simp [align, h, swAlign_nil_ref]
  · intro r fuel
    have hq : normalize ([] : List Char) = [] := rfl
    simp only [align, hq, if_true, reduceIte]
    have htb := nwTraceback_zero_left p.match_score p.mismatch_score p.gap_penalty
      [] (normalize r) (normalize r).length le_rfl
    have hsc := nwScore_zero_left p.match_score p.mismatch_score p.gap_penalty
      [] (normalize r) (normalize r).length
    simp [nwAlign, htb, hsc, List.take_length]
  · intro q fuel
    have hr : normalize ([] : List Char) = [] := rfl
    simp only [align, hr, if_true, reduceIte]
    have htb := nwTraceback_zero_right p.match_score p.mismatch_score p.gap_penalty
      (normalize q) [] (normalize q).length le_rfl
    have hsc := nwScore_zero_right p.match_score p.mismatch_score p.gap_penalty
      (normalize q) [] (normalize q).length
    simp [nwAlign, htb, hsc, List.take_length]
  · intro r fuel
    have hq : normalize ([] : List Char) = [] := rfl
    simp only [align, hq, reduceIte]
    rw [show bmSearch (fuel + 1) [] (normalize r) = .err "IndexError" from
      bmSearch_nil_pattern (normalize r) fuel]
    rfl
  · intro q fuel h
    have hr : normalize ([] : List Char) = [] := rfl
    simp only [align, hr, reduceIte]
    rw [show bmSearch fuel (normalize q) [] = .ok [] from
      bmSearch_nil_text (normalize q) h fuel]
    simp [swAlign_nil_ref]

/-- C4 counterexample: in Needleman-Wunsch mode an empty query against the
non-empty reference `A` does NOT give a zero-length, zero-score result —
the aligned strings have length 1 (one all-gap column) and the score is the
gap penalty `-1`. -/
theorem align_empty_query_nw_nonzero :
    align 0 "needleman-wunsch" defaultParams [] ['A'] =
      .ok { aligned_query := ['-'], aligned_reference := ['A'], score := -1,
            start_position := 0, end_position := 1, identity := 0, similarity := 0,
            gaps := 1, coverage := 0, cigar := "1D", alignment_length := 1 } := by
  have hn : normalize ['A'] = ['A'] := rfl
  have hn0 : normalize ([] : List Char) = [] := rfl
  have htb := nwTraceback_zero_left 2 (-1) (-1) [] ['A'] 1 (by norm_num)
  have hsc := nwScore_zero_left 2 (-1) (-1) [] ['A'] 1
  simp only [align, reduceIte, if_true, hn, hn0, defaultParams]
  simp only [nwAlign, List.length_nil, List.length_cons, hn0]
  norm_num [htb, hsc]
  simp [mkAlignOut, calcSimilarity, genCigar, cigarOp, cigarFoldStep, similarPair]
  rfl

/-- Witness for C4 (amended): concrete empty-input runs — Smith-Waterman
returns the zero result and exact-match mode raises. -/
theorem align_empty_input_behavior_witness :
    align 3 "smith-waterman" defaultParams [] ['A'] = .ok zeroAlignOut ∧
    align 1 "boyer-moore" defaultParams [] ['A'] = .err "IndexError" :=
  ⟨(align_empty_input_behavior defaultParams).1 [] ['A'] 3 (Or.inl rfl),
   (align_empty_input_behavior defaultParams).2.2.2.1 ['A'] 0⟩

/-- Any substitution score under the default parameters is at most the
match reward 2 (the table only contains 2, 0 and -1). -/
theorem scoringLookup_le_two (a b : Char) : scoringLookup 2 (-1) a b ≤ 2 := by
  unfold scoringLookup
  split
  · split
    · norm_num
    · split <;> norm_num
  · norm_num

/-- A base over `{A,T,G,C}` scores the full match reward against itself. -/
theorem scoringLookup_self (c : Char)
    (h : c = 'A' ∨ c = 'T' ∨ c = 'G' ∨ c = 'C') :
    scoringLookup 2 (-1) c c = 2 := by
  rcases h with h | h | h | h <;> subst h <;> rfl

/-- Every Needleman-Wunsch cell is bounded by twice the shorter prefix
length (each diagonal step adds at most 2, gaps only subtract). -/
theorem nwScore_le_two_min (q r : List Char) :
    ∀ i j, nwScore 2 (-1) (-1) q r i j ≤ 2 * ((min i j : Nat) : Int) := by
  intro i
  induction i with
  | zero =>
      intro j
      rw [nwScore_zero_left]
      omega
  | succ i ih =>
      intro j
      induction j with
      | zero =>
          rw [nwScore_zero_right]
          omega
      | succ j ihj =>
          have h1 := ih j
          have h2 := ih (j + 1)
          have h3 := ihj
          have hs := scoringLookup_le_two (q.getD i '?') (r.getD j '?')
          simp only [nwScore]
          omega

/-- `getD` at an in-range index is a member of the list. -/
theorem getD_mem {α : Type} (l : List α) (d : α) (i : Nat) (h : i < l.length) :
    l.getD i d ∈ l := by
  have h2 : l.getD i d = l[i] := by
    rw [List.getD_eq_getElem?_getD, List.getElem?_eq_getElem h]
    rfl
  rw [h2]
  exact List.getElem_mem h

/-- Self-alignment diagonal: the score of cell `(i, i)` is exactly `2 i`. -/
theorem nwScore_diag (s : List Char)
    (hb : ∀ c ∈ s, c = 'A' ∨ c = 'T' ∨ c = 'G' ∨ c = 'C') :
    ∀ i, i ≤ s.length → nwScore 2 (-1) (-1) s s i i = 2 * i := by
  intro i
  induction i with
  | zero => intro _; simp [nwScore]
  | succ i ih =>
      intro hi
      have hi' : i ≤ s.length := Nat.le_of_succ_le hi
      have hlt : i < s.length := hi
      have hself : scoringLookup 2 (-1) (s.getD i '?') (s.getD i '?') = 2 :=
        scoringLookup_self _ (hb _ (getD_mem s '?' i hlt))
      have hd := nwScore_le_two_min s s i (i + 1)
      have hu := nwScore_le_two_min s s (i + 1) i
      simp only [nwScore]
      rw [ih hi', hself]
      omega

/-- Self-alignment diagonal: the recorded traceback direction is DIAGONAL
(the tie-break tests the match candidate first, and it alone attains the
maximum). -/
theorem nwDir_diag (s : List Char)
    (hb : ∀ c ∈ s, c = 'A' ∨ c = 'T' ∨ c = 'G' ∨ c = 'C')
    (i : Nat) (hi : i + 1 ≤ s.length) :
    nwDir 2 (-1) (-1) s s (i + 1) (i + 1) = .D := by
  have hi' : i ≤ s.length := Nat.le_of_succ_le hi
  have hlt : i < s.length := hi
  have hself : scoringLookup 2 (-1) (s.getD i '?') (s.getD i '?') = 2 :=
    scoringLookup_self _ (hb _ (getD_mem s '?' i hlt))
  have hdiag1 := nwScore_diag s hb (i + 1) hi
  have hdiag0 := nwScore_diag s hb i hi'
  simp only [nwDir, hself, hdiag1, hdiag0]
  rw [if_pos (by push_cast; ring)]

/-- Self-alignment traceback: walking the diagonal reproduces the prefix on
both sides. -/
theorem nwTraceback_diag (s : List Char)
    (hb : ∀ c ∈ s, c = 'A' ∨ c = 'T' ∨ c = 'G' ∨ c = 'C') :
    ∀ i, i ≤ s.length →
      nwTraceback 2 (-1) (-1) s s i i = (s.take i, s.take i) := by
  intro i
  induction i with
  | zero => intro _; simp [nwTraceback]
  | succ i ih =>
      intro hi
      have hi' : i ≤ s.length := Nat.le_of_succ_le hi
      have hlt : i < s.length := hi
      have hdir := nwDir_diag s hb i hi
      rw [show nwTraceback 2 (-1) (-1) s s (i + 1) (i + 1) =
            ((nwTraceback 2 (-1) (-1) s s i i).1 ++ [s.getD i '?'],
             (nwTraceback 2 (-1) (-1) s s i i).2 ++ [s.getD i '?']) from by
        simp [nwTraceback, hdir]]
      rw [ih hi', take_succ_getD s '?' i hlt]

/-- Zipping a gap-free sequence with itself: every column is a non-gap
match. -/
theorem zip_self_matches (s : List Char)
    (hb : ∀ c ∈ s, c = 'A' ∨ c = 'T' ∨ c = 'G' ∨ c = 'C') :
    ((s.zip s).filter fun ab => ab.1 = ab.2 && ab.1 ≠ '-').length = s.length := by
  induction s with
  | nil => rfl
  | cons c cs ih =>
      have hc : c = 'A' ∨ c = 'T' ∨ c = 'G' ∨ c = 'C' := hb c (List.mem_cons_self c cs)
      have hcs : ∀ x ∈ cs, x = 'A' ∨ x = 'T' ∨ x = 'G' ∨ x = 'C' :=
        fun x hx => hb x (List.mem_cons_of_mem c hx)
      have hne : c ≠ '-' := by rcases hc with h | h | h | h <;> subst h <;> decide
      simp only [List.zip_cons_cons, List.filter_cons]
      rw [if_pos (by simp [hne])]
      simp only [List.length_cons]
      have hlen := ih hcs
      simp only [ne_eq] at hlen ⊢
      omega

/-- A sequence over `{A,T,G,C}` contains no gap characters. -/
theorem no_gap_chars (s : List Char)
    (hb : ∀ c ∈ s, c = 'A' ∨ c = 'T' ∨ c = 'G' ∨ c = 'C') :
    (s.filter fun c => c = '-').length = 0 := by
  rw [List.length_eq_zero, List.filter_eq_nil_iff]
  intro c hc
  have := hb c hc
  rcases this with h | h | h | h <;> subst h <;> decide

/-- Self-alignment columns all classify as match operations. -/
theorem cigar_ops_self (s : List Char)
    (hb : ∀ c ∈ s, c = 'A' ∨ c = 'T' ∨ c = 'G' ∨ c = 'C') :
    ((s.zip s).map fun ab => cigarOp ab.1 ab.2) = List.replicate s.length 'M' := by
  induction s with
  | nil => rfl
  | cons c cs ih =>
      have hc := hb c (List.mem_cons_self c cs)
      have hcs : ∀ x ∈ cs, x = 'A' ∨ x = 'T' ∨ x = 'G' ∨ x = 'C' :=
        fun x hx => hb x (List.mem_cons_of_mem c hx)
      have hop : cigarOp c c = 'M' := by
        rcases hc with h | h | h | h <;> subst h <;> rfl
      simp [List.replicate_succ, hop, ih hcs]

theorem cigarFold_all_M (m : Nat) : ∀ (acc : String) (k : Nat),
    (List.replicate m 'M').foldl cigarFoldStep (acc, some 'M', k) = (acc, some 'M', k + m) := by
  induction m with
  | zero => intro acc k; rfl
  | succ m ih =>
      intro acc k
      rw [List.replicate_succ, List.foldl_cons]
      rw [show cigarFoldStep (acc, some 'M', k) 'M' = (acc, some 'M', k + 1) from rfl]
      rw [ih acc (k + 1)]
      simp [Nat.add_assoc, Nat.add_comm 1 m]

/-- The empty string is a left identity for string append. -/
theorem empty_string_append (s : String) : "" ++ s = s := rfl

/-- The CIGAR of a non-empty all-match alignment is one `M` run. -/
theorem genCigar_self (s : List Char) (hne : s ≠ [])
    (hb : ∀ c ∈ s, c = 'A' ∨ c = 'T' ∨ c = 'G' ∨ c = 'C') :
    genCigar s s = toString s.length ++ "M" := by
  obtain ⟨c, cs, rfl⟩ := List.exists_cons_of_ne_nil hne
  rw [genCigar]
  rw [if_neg (by simp)]
  rw [cigar_ops_self _ hb]
  rw [show (c :: cs).length = cs.length + 1 from rfl, List.replicate_succ, List.foldl_cons]
  rw [show cigarFoldStep ("", none, 0) 'M' = ("", some 'M', 1) from rfl]
  rw [cigarFold_all_M cs.length "" 1]
  show (if 1 + cs.length > 0 then "" ++ toString (1 + cs.length) ++ String.singleton 'M'
        else "") = toString (cs.length + 1) ++ "M"
  rw [if_pos (by omega)]
  rw [empty_string_append]
  rw [show String.singleton 'M' = "M" from rfl]
  rw [Nat.add_comm 1 cs.length]

end SNP.Alignment

namespace SNP

/-- `dropWhile` is the identity when no element satisfies the predicate. -/
theorem dropWhile_of_no_sat {α : Type} (p : α → Bool) (l : List α)
    (h : ∀ c ∈ l, p c = false) : l.dropWhile p = l := by
  cases l with
  | nil => rfl
  | cons c cs =>
      rw [List.dropWhile_cons, h c (List.mem_cons_self c cs)]
      simp

/-- Normalisation (`upper` + `strip`) is the identity on sequences over
`{A,T,G,C}`. -/
theorem normalize_atgc (s : List Char)
    (hb : ∀ c ∈ s, c = 'A' ∨ c = 'T' ∨ c = 'G' ∨ c = 'C') :
    normalize s = s := by
  have hup : ∀ t : List Char, (∀ c ∈ t, c = 'A' ∨ c = 'T' ∨ c = 'G' ∨ c = 'C') →
      upper t = t := by
    intro t
    induction t with
    | nil => intro _; rfl
    | cons c cs ih =>
        intro ht
        have hc : upChar c = c := by
          rcases ht c (List.mem_cons_self c cs) with h | h | h | h <;> subst h <;> rfl
        have := ih fun x hx => ht x (List.mem_cons_of_mem c hx)
        simp only [upper, List.map_cons, hc]
        simp only [upper] at this
        rw [this]
  have hup := hup s hb
  have hws : ∀ c ∈ s, c.isWhitespace = false := by
    intro c hc
    rcases hb c hc with h | h | h | h <;> subst h <;> rfl
  have hws' : ∀ c ∈ s.reverse, c.isWhitespace = false := by
    intro c hc
    exact hws c (List.mem_reverse.mp hc)
  unfold normalize pyStrip
  rw [hup, dropWhile_of_no_sat _ _ hws, dropWhile_of_no_sat _ _ hws',
    List.reverse_reverse]

end SNP

namespace SNP.Alignment

open SNP.StringMatching

/-- C5: Needleman-Wunsch self-alignment of a non-empty sequence over
`{A,T,G,C}` yields identity 1.0, zero gaps, and a CIGAR string that is a
single all-match run (length followed by `M`). -/
theorem nw_self_alignment (s : List Char) (hne : s ≠ [])
    (hb : ∀ c ∈ s, c = 'A' ∨ c = 'T' ∨ c = 'G' ∨ c = 'C') :
    align 0 "needleman-wunsch" defaultParams s s = .ok (nwAlign 2 (-1) (-1) s s) ∧
    (nwAlign 2 (-1) (-1) s s).identity = 1 ∧
    (nwAlign 2 (-1) (-1) s s).gaps = 0 ∧
    (nwAlign 2 (-1) (-1) s s).cigar = toString s.length ++ "M" := by
  have hn := normalize_atgc s hb
  have hab : nwTraceback 2 (-1) (-1) s s s.length s.length = (s, s) := by
    rw [nwTraceback_diag s hb s.length le_rfl, List.take_length]
  have hguard : ¬(s = [] ∨ s = []) := by simp [hne]
  refine ⟨?_, ?_, ?_, ?_⟩
  · simp only [align, reduceIte, if_true, hn]
    rfl
  · simp only [nwAlign, hab, mkAlignOut]
    rw [if_neg hguard]
    simp only []
    rw [zip_self_matches s hb]
    rw [if_pos (List.length_pos.mpr hne)]
    exact div_self (by
      exact_mod_cast Nat.pos_iff_ne_zero.mp (List.length_pos.mpr hne))
  · simp only [nwAlign, hab, mkAlignOut]
    rw [if_neg hguard]
    simp only []
    rw [no_gap_chars s hb]
  · simp only [nwAlign, hab, mkAlignOut]
    rw [if_neg hguard]
    simp only []
    exact genCigar_self s hne hb

/-- Witness for C5: the self-alignment facts at the concrete sequence
`ATG`. -/
theorem nw_self_alignment_witness :
    align 0 "needleman-wunsch" defaultParams ['A', 'T', 'G'] ['A', 'T', 'G'] =
      .ok (nwAlign 2 (-1) (-1) ['A', 'T', 'G'] ['A', 'T', 'G']) ∧
    (nwAlign 2 (-1) (-1) ['A', 'T', 'G'] ['A', 'T', 'G']).identity = 1 ∧
    (nwAlign 2 (-1) (-1) ['A', 'T', 'G'] ['A', 'T', 'G']).gaps = 0 ∧
    (nwAlign 2 (-1) (-1) ['A', 'T', 'G'] ['A', 'T', 'G']).cigar =
      toString (['A', 'T', 'G'] : List Char).length ++ "M" :=
  nw_self_alignment ['A', 'T', 'G'] (by decide) (by decide)

end SNP.Alignment

namespace SNP.Main

/-- C10: the import of `ClinicalAnalysisPipeline` from
`algorithms.clinical_snp_detection` fails (the module defines only
`OptimizedClinicalAnalysisPipeline`), so `CLINICAL_DETECTION_AVAILABLE` is
false, and for every input sequence the default (`clinical-grade`) analysis
takes the fallback branch reporting zero variants, quality score 95.0 and
risk score 0.0 — which buckets as overall risk LOW. -/
theorem clinical_import_fails_fallback :
    ("ClinicalAnalysisPipeline" ∉ clinicalModuleExports) ∧
    ("OptimizedClinicalAnalysisPipeline" ∈ clinicalModuleExports) ∧
    CLINICAL_DETECTION_AVAILABLE = false ∧
    (∀ (seq ref : List Char) (smAvail : Bool) (fuel : Nat),
        variantCallingStep CLINICAL_DETECTION_AVAILABLE smAvail "clinical-grade" fuel seq ref =
          some { variants := [], quality_score := 95, risk_score := 0,
                 recommendations := ["No variants detected in conservative analysis"] }) ∧
    overallRisk 0 = "LOW" := by
  refine ⟨by decide, by decide, by decide, ?_, by norm_num [overallRisk]⟩
  intro seq ref smAvail fuel
  simp [variantCallingStep, CLINICAL_DETECTION_AVAILABLE, clinicalModuleExports]

end SNP.Main

namespace SNP.Clinical

/-- Scanning a sequence against itself finds no mismatch at any index. -/
theorem detectGo_self (t : List Char) (qs : Option (List Int)) :
    ∀ idxs : List Nat, detectGo t t qs idxs = .ok [] := by
  intro idxs
  induction idxs with
  | nil => rfl
  | cons i rest ih => simp [detectGo, ih]

/-- C3 counterexample: for the empty query identical to the empty
reference, the pipeline does NOT return an empty report — the scan's chunk
loop computes `chunk_size = min(1000, 0) = 0`, so `range(0, 0, 0)` raises
`ValueError` before any scanning, and both `call_variants` and `analyze`
propagate the exception. -/
theorem empty_identical_query_raises :
    callVariants "BRCA1" [] [] none =
      .error "ValueError: range() arg 3 must not be zero" ∧
    analyze "BRCA1" [] [] =
      .error "ValueError: range() arg 3 must not be zero" := by
  constructor
  · rfl
  · rfl

/-- C3 (amended): a NON-EMPTY query identical to the reference yields zero
candidate variants: the scan finds no mismatch, `call_variants` returns the
empty list without reaching the broken later stages, and `analyze` produces
a well-formed empty report with risk score 0.0, which the entry layer
buckets as overall risk LOW.  (The empty identical input instead raises
`ValueError` in the scan's chunking.) -/
theorem identical_query_empty_report (gene : String) (reference : List Char)
    (h : reference ≠ []) :
    callVariants gene reference reference none = .ok [] ∧
    analyze gene reference reference =
      .ok { variants := [],
            summary := { total_variants := 0, pathogenic_variants := 0,
                         likely_pathogenic_variants := 0, uncertain_variants := 0,
                         likely_benign_variants := 0, benign_variants := 0,
                         pathogenic_rate := 0, high_confidence_variants := 0,
                         critical_domain_variants := 0 },
            quality_score := 98,
            risk_score := 0,
            recommendations := ["No pathogenic variants detected in analyzed sequence",
                                "Continue standard screening guidelines for BRCA-related cancers"] } ∧
    SNP.Main.overallRisk 0 = "LOW" := by
  have hlen : reference.length ≠ 0 := fun hc => h (List.length_eq_zero.mp hc)
  have hcall : callVariants gene reference reference none = .ok [] := by
    have hne : SNP.upper reference ≠ [] := by
      simp only [SNP.upper, ne_eq, List.map_eq_nil_iff]
      exact h
    simp [callVariants, detectRawVariantsOptimized, hne, detectGo_self]
    rfl
  refine ⟨hcall, ?_, by norm_num [SNP.Main.overallRisk]⟩
  have hsum : generateOptimizedSummary [] =
      { total_variants := 0, pathogenic_variants := 0,
        likely_pathogenic_variants := 0, uncertain_variants := 0,
        likely_benign_variants := 0, benign_variants := 0, pathogenic_rate := 0,
        high_confidence_variants := 0, critical_domain_variants := 0 } := by
    simp [generateOptimizedSummary]
    norm_num [pyRound1]
  have hq : calculateQualityScore [] reference.length = 98 := by
    simp [calculateQualityScore, hlen]
    norm_num
  have hrisk : calculateOptimizedRiskScore [] = 0 := rfl
  have hrec : generateOptimizedRecommendations [] 0 =
      ["No pathogenic variants detected in analyzed sequence",
       "Continue standard screening guidelines for BRCA-related cancers"] := by
    norm_num [generateOptimizedRecommendations]
  simp [analyze, hcall, hsum, hq, hrisk, hrec]

/-- Witness for C3 (amended): the empty report at the concrete non-empty
reference `ATG`. -/
theorem identical_query_empty_report_witness :
    callVariants "BRCA1" ['A', 'T', 'G'] ['A', 'T', 'G'] none = .ok [] ∧
    analyze "BRCA1" ['A', 'T', 'G'] ['A', 'T', 'G'] =
      .ok { variants := [],
            summary := { total_variants := 0, pathogenic_variants := 0,
                         likely_pathogenic_variants := 0, uncertain_variants := 0,
                         likely_benign_variants := 0, benign_variants := 0,
                         pathogenic_rate := 0, high_confidence_variants := 0,
                         critical_domain_variants := 0 },
            quality_score := 98,
            risk_score := 0,
            recommendations := ["No pathogenic variants detected in analyzed sequence",
                                "Continue standard screening guidelines for BRCA-related cancers"] } ∧
    SNP.Main.overallRisk 0 = "LOW" :=
  identical_query_empty_report "BRCA1" ['A', 'T', 'G'] (by decide)

/-- C1 (code evaluation at the failing input): on the spec's own end-to-end
scenario — reference as above, query differing only by the single `T>G`
substitution, uniform base quality 35 — the scan reaches the mismatch,
passes the speed pre-filter, and calls the non-existent method
`_calculate_simple_metrics`: `call_variants` raises `AttributeError`
instead of returning one surviving variant, and `analyze` propagates the
exception instead of reporting `total_variants == 1`. -/
theorem scenario_call_variants_raises :
    callVariants "BRCA1" scenarioReference scenarioQuery
        (some (List.replicate 60 35)) =
      .error "AttributeError: no attribute _calculate_simple_metrics" ∧
    analyze "BRCA1" scenarioReference scenarioQuery =
      .error "AttributeError: no attribute _calculate_simple_metrics" := by
  constructor
  · rfl
  · rfl

/-- C6 counterexample: evaluating the ACMG criteria twice on the same
variant (position 3, `A>G`, same metrics, no population frequency) gives
different evidence sets when the synonymous check's random draw differs
(0.2 versus 0.5): `bp7` is set in one run and not the other. -/
theorem acmg_two_runs_differ :
    evaluateOptimizedACMGCriteria "BRCA1"
        { position := 3, ref := 'A', alt := 'G',
          metrics := { variant_confidence := 1 / 2, conservation_score := 1 / 2,
                       context_quality := 1 / 2, domain_score := 1 / 2 },
          population_frequency := none } {} (1 / 5) ≠
      evaluateOptimizedACMGCriteria "BRCA1"
        { position := 3, ref := 'A', alt := 'G',
          metrics := { variant_confidence := 1 / 2, conservation_score := 1 / 2,
                       context_quality := 1 / 2, domain_score := 1 / 2 },
          population_frequency := none } {} (1 / 2) := by
  norm_num [evaluateOptimizedACMGCriteria, isSynonymousVariant, knownPathogenic,
    inCriticalPositions, criticalRegions]

/-- C6 (amended): the evidence evaluation is a deterministic function of the
variant, metrics, frequency and gene tables TOGETHER WITH the random draw
consumed by the synonymous check; for variants whose position is not a
multiple of 3 the draw is irrelevant, so two runs agree on the evidence
flags and hence on the classification. -/
theorem acmg_deterministic_given_draw (gene : String) (v : Variant)
    (e : OptimizedACMGEvidence) (r1 r2 : Rat) (h : v.position % 3 ≠ 0) :
    evaluateOptimizedACMGCriteria gene v e r1 = evaluateOptimizedACMGCriteria gene v e r2 ∧
    getClassification (evaluateOptimizedACMGCriteria gene v e r1) =
      getClassification (evaluateOptimizedACMGCriteria gene v e r2) := by
  have hsy : ∀ r : Rat, isSynonymousVariant v r = false := by
    intro r
    simp [isSynonymousVariant, h]
  have heq : evaluateOptimizedACMGCriteria gene v e r1 =
      evaluateOptimizedACMGCriteria gene v e r2 := by
    simp only [evaluateOptimizedACMGCriteria, hsy]
  exact ⟨heq, by rw [heq]⟩

/-- Witness for C6 (amended): two different draws at position 1 give the
same evidence record and classification. -/
theorem acmg_deterministic_given_draw_witness :
    evaluateOptimizedACMGCriteria "BRCA1"
        { position := 1, ref := 'A', alt := 'G', metrics := {},
          population_frequency := none } {} 0 =
      evaluateOptimizedACMGCriteria "BRCA1"
        { position := 1, ref := 'A', alt := 'G', metrics := {},
          population_frequency := none } {} 1 ∧
    getClassification (evaluateOptimizedACMGCriteria "BRCA1"
        { position := 1, ref := 'A', alt := 'G', metrics := {},
          population_frequency := none } {} 0) =
      getClassification (evaluateOptimizedACMGCriteria "BRCA1"
        { position := 1, ref := 'A', alt := 'G', metrics := {},
          population_frequency := none } {} 1) :=
  acmg_deterministic_given_draw "BRCA1"
    { position := 1, ref := 'A', alt := 'G', metrics := {},
      population_frequency := none } {} 0 1 (by decide)

/-- C7: classification is a step function of the pathogenicity score with
closed bounds: PATHOGENIC exactly from 10 upward (so a score of exactly 10
is PATHOGENIC), LIKELY_PATHOGENIC on [6, 10) (so 9 is LIKELY_PATHOGENIC),
BENIGN at or below -10, LIKELY_BENIGN on (-10, -6], and
UNCERTAIN_SIGNIFICANCE strictly between -6 and 6. -/
theorem classification_step_function (e : OptimizedACMGEvidence) :
    (10 ≤ calculatePathogenicityScore e → getClassification e = "PATHOGENIC") ∧
    (6 ≤ calculatePathogenicityScore e → calculatePathogenicityScore e < 10 →
      getClassification e = "LIKELY_PATHOGENIC") ∧
    (calculatePathogenicityScore e ≤ -10 → getClassification e = "BENIGN") ∧
    (-10 < calculatePathogenicityScore e → calculatePathogenicityScore e ≤ -6 →
      getClassification e = "LIKELY_BENIGN") ∧
    (-6 < calculatePathogenicityScore e → calculatePathogenicityScore e < 6 →
      getClassification e = "UNCERTAIN_SIGNIFICANCE") := by
  have hcls : getClassification e =
      (if calculatePathogenicityScore e ≥ 10 then "PATHOGENIC"
       else if calculatePathogenicityScore e ≥ 6 then "LIKELY_PATHOGENIC"
       else if calculatePathogenicityScore e ≤ -10 then "BENIGN"
       else if calculatePathogenicityScore e ≤ -6 then "LIKELY_BENIGN"
       else "UNCERTAIN_SIGNIFICANCE") := rfl
  refine ⟨?_, ?_, ?_, ?_, ?_⟩ <;> intros <;> rw [hcls] <;>
    split_ifs <;> first | rfl | linarith

/-- Witness for C7: an evidence set scoring exactly 10 (PVS1 alone)
classifies PATHOGENIC, and one scoring exactly 9 (PS1 + PM2 + PP2)
classifies LIKELY_PATHOGENIC. -/
theorem classification_step_function_witness :
    getClassification { pvs1 := true } = "PATHOGENIC" ∧
    getClassification { ps1 := true, pm2 := true, pp2 := true } = "LIKELY_PATHOGENIC" :=
  ⟨(classification_step_function { pvs1 := true }).1
      (by norm_num [calculatePathogenicityScore]),
   (classification_step_function { ps1 := true, pm2 := true, pp2 := true }).2.1
      (by norm_num [calculatePathogenicityScore])
      (by norm_num [calculatePathogenicityScore])⟩

/-- The append loop of `_final_confidence_filtering` keeps exactly the
variants whose confidence meets the claim's floor. -/
theorem finalFilterLoop_eq_filter (gene : String) :
    ∀ l : List Variant,
      finalFilterLoop gene l =
        l.filter fun v => confidenceFloor gene v ≤ v.metrics.variant_confidence := by
  intro l
  induction l with
  | nil => rfl
  | cons v rest ih =>
      have hfloor :
          (if (knownPathogenic gene v.position).isSome then (75 : Rat) / 100
           else if v.metrics.domain_score > 8 / 10 then 80 / 100 else 85 / 100) =
            confidenceFloor gene v := rfl
      by_cases hc : confidenceFloor gene v ≤ v.metrics.variant_confidence
      · simp [finalFilterLoop, List.filter_cons, hfloor, hc, ih, ge_iff_le]
      · simp [finalFilterLoop, List.filter_cons, hfloor, hc, ih, ge_iff_le]

/-- C8: the final confidence-ranking stage equals "sort by confidence
descending, then keep exactly the variants whose confidence meets the
floor", where the floor is 0.85, lowered to 0.80 for domain score above 0.8
and to 0.75 at known-pathogenic positions; the floor never exceeds 0.85
(domain knowledge only lowers it), and the output is sorted by confidence
descending. -/
theorem final_confidence_filtering_spec (gene : String) (variants : List Variant) :
    finalConfidenceFiltering gene variants =
      (sortByConfidenceDesc variants).filter
        (fun v => confidenceFloor gene v ≤ v.metrics.variant_confidence) ∧
    (∀ v : Variant, confidenceFloor gene v ≤ 85 / 100) ∧
    (finalConfidenceFiltering gene variants).Pairwise
      (fun a b => b.metrics.variant_confidence ≤ a.metrics.variant_confidence) := by
  have hmain : finalConfidenceFiltering gene variants =
      (sortByConfidenceDesc variants).filter
        (fun v => confidenceFloor gene v ≤ v.metrics.variant_confidence) := by
    by_cases h : variants = []
    · subst h
      simp [finalConfidenceFiltering, sortByConfidenceDesc, List.mergeSort_nil]
    · simp only [finalConfidenceFiltering, h, if_neg]
      rw [finalFilterLoop_eq_filter]
      simp [h]
  refine ⟨hmain, ?_, ?_⟩
  · intro v
    unfold confidenceFloor
    split_ifs <;> norm_num
  · rw [hmain]
    have hsorted : (sortByConfidenceDesc variants).Pairwise
        (fun a b => b.metrics.variant_confidence ≤ a.metrics.variant_confidence) := by
      have := @List.sorted_mergeSort Variant
        (fun a b : Variant =>
          decide (b.metrics.variant_confidence ≤ a.metrics.variant_confidence))
        (fun a b c hab hbc => by
          simp only [decide_eq_true_eq] at *
          exact le_trans hbc hab)
        (fun a b => by
          simp only [Bool.or_eq_true, decide_eq_true_eq]
          exact le_total b.metrics.variant_confidence a.metrics.variant_confidence)
        variants
      exact this.imp fun h => of_decide_eq_true h
    exact hsorted.sublist (List.filter_sublist _)

end SNP.Clinical
